import Mathlib

/-!
Verification of the ClickHouse HTTP client (`src/client/ClickHouseClient.ts`).

The client is embedded shallowly: each private helper of the TypeScript class
becomes a Lean function over explicit data.  Network effects are made explicit:
an HTTP exchange is summarised by an `HttpResult` (the response outcome the
transport hands back), and a run of an Observable-producing method is a
`RunResult` recording the requests issued, the events delivered to the
subscriber, and the messages passed to the logger.
-/

set_option maxRecDepth 4096

namespace ClickHouse

/-- JSON values, as produced by the `stream-json` parser on the response body
and as accepted by `insert` as records.  Numeric literals are modelled as
integers (the claims under study never exercise fractional values). -/
inductive Json where
  | null
  | bool (b : Bool)
  | num (n : Int)
  | str (s : String)
  | arr (elems : List Json)
  | obj (fields : List (String × Json))

/-- One hexadecimal digit, lower case (used by the `\u00XX` escapes of
`JSON.stringify`). -/
def hexDigit (n : Nat) : String :=
  if n < 10 then toString n
  else if n = 10 then "a"
  else if n = 11 then "b"
  else if n = 12 then "c"
  else if n = 13 then "d"
  else if n = 14 then "e"
  else "f"

/-- `JSON.stringify` escaping of a single character inside a string literal. -/
def escapeJsonChar (c : Char) : String :=
  if c = '"' then "\\\""
  else if c = '\\' then "\\\\"
  else if c = '\n' then "\\n"
  else if c = '\r' then "\\r"
  else if c = '\t' then "\\t"
  else if c.toNat = 8 then "\\b"
  else if c.toNat = 12 then "\\f"
  else if c.toNat < 32 then "\\u00" ++ hexDigit (c.toNat / 16) ++ hexDigit (c.toNat % 16)
  else String.singleton c

/-- `JSON.stringify` escaping of a whole string (without the surrounding
quotes). -/
def escapeJsonString (s : String) : String :=
  String.join (s.toList.map escapeJsonChar)

mutual

/-- `JSON.stringify`, as used by `insert` to serialise one record. -/
def Json.stringify : Json → String
  | .null => "null"
  | .bool true => "true"
  | .bool false => "false"
  | .num n => toString n
  | .str s => "\"" ++ escapeJsonString s ++ "\""
  | .arr elems => "[" ++ Json.stringifyList elems ++ "]"
  | .obj fields => "\x7b" ++ Json.stringifyFields fields ++ "\x7d"

/-- Comma-separated serialisation of array elements. -/
def Json.stringifyList : List Json → String
  | [] => ""
  | [v] => Json.stringify v
  | v :: rest => Json.stringify v ++ "," ++ Json.stringifyList rest

/-- Comma-separated serialisation of object fields. -/
def Json.stringifyFields : List (String × Json) → String
  | [] => ""
  | [f] => "\"" ++ escapeJsonString f.1 ++ "\":" ++ Json.stringify f.2
  | f :: rest =>
      "\"" ++ escapeJsonString f.1 ++ "\":" ++ Json.stringify f.2 ++ ","
        ++ Json.stringifyFields rest

end

/-- Modelled from the spec: the enums module (`./enums`) is not under `src/`;
the spec gives `rowFormat∈\x7bJSON-rows,…\x7d`, so the data-format enum is
modelled with the JSON member the client checks for plus one further member
standing for any other configurable format. -/
inductive ClickHouseDataFormat where
  | JSON
  | TabSeparated
deriving Repr, DecidableEq

/-- The string value of the format enum member, as it appears in the
`FORMAT` clause built by `_getRequestOptions`. -/
def ClickHouseDataFormat.name : ClickHouseDataFormat → String
  | .JSON => "JSON"
  | .TabSeparated => "TabSeparated"

/-- Modelled from the spec: compression methods (`./enums` is not under
`src/`); the spec gives `compression∈\x7bNONE,GZIP,DEFLATE,BROTLI\x7d`. -/
inductive ClickHouseCompressionMethod where
  | NONE
  | GZIP
  | DEFLATE
  | BROTLI
deriving Repr, DecidableEq

/-- Modelled from the spec: connection protocols (`./enums` is not under
`src/`); the spec gives `protocol∈\x7bHTTP,HTTPS\x7d`. -/
inductive ClickHouseConnectionProtocol where
  | HTTP
  | HTTPS
deriving Repr, DecidableEq

/-- Modelled from the spec: the options class
(`./interfaces/ClickHouseClientOptions`) is not under `src/`; the fields are
those the client reads, with the defaults the spec documents (protocol=HTTP,
compression=NONE, rowFormat=JSON-rows, database="default"). -/
structure ClickHouseClientOptions where
  host : String := "127.0.0.1"
  port : Nat := 8123
  username : String := "default"
  password : String := ""
  database : String := "default"
  protocol : ClickHouseConnectionProtocol := .HTTP
  format : ClickHouseDataFormat := .JSON
  compression : ClickHouseCompressionMethod := .NONE

/-- JavaScript `String.prototype.trim`: whitespace removed from both ends. -/
def jsTrim (s : String) : String :=
  String.mk (((s.data.dropWhile Char.isWhitespace).reverse.dropWhile
    Char.isWhitespace).reverse)

/-- JavaScript `String.prototype.trimEnd`: trailing whitespace removed. -/
def jsTrimEnd (s : String) : String :=
  String.mk ((s.data.reverse.dropWhile Char.isWhitespace).reverse)

namespace ClickHouseClient

/-- `_getUrl`: the HTTP interface base URL. -/
def _getUrl (opts : ClickHouseClientOptions) : String :=
  match opts.protocol with
  | .HTTP => "http://" ++ opts.host ++ ":" ++ toString opts.port
  | .HTTPS => "https://" ++ opts.host ++ ":" ++ toString opts.port

/-- `_getHeaders`: the `Accept-Encoding` request header entry (absent when
compression is NONE). -/
def _getHeaders (opts : ClickHouseClientOptions) : Option String :=
  match opts.compression with
  | .GZIP => some "gzip"
  | .DEFLATE => some "deflate"
  | .BROTLI => some "br"
  | .NONE => none

/-- The axios request configuration built by `_getRequestOptions` (and, for
inserts, extended with a body by `Object.assign`).  `params` is the ordered
list of query-string entries; `brotli` records the `transformResponse` stage
that pipes the body through a brotli decompressor. -/
structure RequestDescriptor where
  url : String
  params : List (String × String)
  responseType : String
  method : String
  username : String
  password : String
  acceptEncoding : Option String
  brotli : Bool
  body : Option String

/-- `_getRequestOptions`: builds the request.  Unless `withoutFormat` is set,
a ` FORMAT <format>` clause is appended to the trailing-trimmed SQL; the
query-string carries `query` and `database`, plus `enable_http_compression=1`
when compression is enabled. -/
def _getRequestOptions (opts : ClickHouseClientOptions) (query : String)
    (withoutFormat : Bool) : RequestDescriptor :=
  let q := if withoutFormat then query
    else jsTrimEnd query ++ " FORMAT " ++ opts.format.name
  { url := _getUrl opts
    params :=
      [("query", q), ("database", opts.database)]
        ++ (if opts.compression ≠ .NONE then [("enable_http_compression", "1")] else [])
    responseType := "stream"
    method := "POST"
    username := opts.username
    password := opts.password
    acceptEncoding := _getHeaders opts
    brotli := opts.compression = .BROTLI
    body := none }

/-- A raw JavaScript failure value with no `.response` attached: either an
`Error` thrown inside the response handler, or a transport-level failure
(connection refused, timeout, DNS), identified opaquely. -/
inductive RawError where
  | thrownError (message : String)
  | transport (id : Nat)
deriving Repr, DecidableEq

/-- An error value as delivered to the subscriber / logger: either the
trimmed text extracted from an error response body, or a raw failure value
passed through as-is. -/
inductive ErrVal where
  | msg (s : String)
  | raw (r : RawError)
deriving Repr, DecidableEq

/-- One notification delivered to an rxjs subscriber. -/
inductive Delivery where
  | next (row : Json)
  | complete
  | error (e : ErrVal)

/-- Whether a delivery is a terminal signal (`complete` or `error`). -/
def Delivery.isTerminal : Delivery → Bool
  | .next _ => false
  | .complete => true
  | .error _ => true

/-- The body of a successful HTTP response, as seen by the `stream-json`
pipeline: either bytes that parse as a single JSON value, or bytes on which
the parser fails (malformed content, premature close). -/
inductive BodyOutcome where
  | parsed (v : Json)
  | malformed

/-- The outcome of one HTTP exchange, as the transport hands it back:
a 2xx response with a body stream, a non-2xx failure carrying a response
body (its chunks, in arrival order), or a transport failure with no
response. -/
inductive HttpResult where
  | success (body : BodyOutcome)
  | failureWithBody (chunks : List String)
  | failureNoBody (reason : RawError)

/-- The reason object caught in a `.catch` handler, as `_handleError`
inspects it: with or without a `.response` whose data stream yields the
given chunks. -/
inductive CaughtReason where
  | withResponse (chunks : List String)
  | noResponse (r : RawError)

/-- What `_handleError` does with a caught reason: the logger calls it makes
and the value it passes to `subscriber.error`. -/
structure ErrorDelivery where
  logs : List ErrVal
  delivered : ErrVal
deriving Repr, DecidableEq

/-- `_handleError`: with a response, drain the body stream, accumulate the
chunks as text, trim, log the trimmed text and deliver it; without one, log
the raw reason and deliver it as-is. -/
def _handleError : CaughtReason → ErrorDelivery
  | .withResponse chunks =>
      let err := jsTrim (String.join chunks)
      { logs := [.msg err], delivered := .msg err }
  | .noResponse r => { logs := [.raw r], delivered := .raw r }

/-- The `Pick \x7bfilter: 'data'\x7d` stage: the values of the top-level
fields named `data` (a non-object top-level value yields nothing). -/
def pickData : Json → List Json
  | .obj fields => fields.filterMap (fun f => if f.1 = "data" then some f.2 else none)
  | _ => []

/-- The `StreamArray` stage applied to the picked values: the rows it emits
in order, paired with `true` when its input ends cleanly (every picked value
an array) and `false` when it raises a stream error (a picked value is not
an array), after which nothing further is emitted. -/
def streamArrayRows : List Json → List Json × Bool
  | [] => ([], true)
  | .arr xs :: rest =>
      let r := streamArrayRows rest
      (xs ++ r.1, r.2)
  | _ :: _ => ([], false)

/-- The full `Parser → Pick('data') → StreamArray` pipeline over a response
body: the rows emitted in order, and whether the pipeline reaches a clean
`end` (a parse failure, like a non-array pick, raises a stream error and the
`end` event never fires). -/
def decodePipeline : BodyOutcome → List Json × Bool
  | .parsed v => streamArrayRows (pickData v)
  | .malformed => ([], false)

/-- The `Error` thrown by `_queryObservable` when the configured format is
not JSON. -/
def unsupportedFormatError : RawError :=
  .thrownError "Unsupported data format. Only JSON is supported for now."

/-- The observable record of one run: requests issued to the transport,
deliveries to the subscriber, and logger calls. -/
structure RunResult where
  requests : List RequestDescriptor
  events : List Delivery
  logs : List ErrVal

/-- `_queryObservable`: issues the built request; on success with the JSON
format the decode pipeline drives `next` per row and `complete` on the
pipeline's `end` event (no `error` listener is installed on the pipeline);
with any other format the thrown `Error` is caught by the `.catch` and
routed through `_handleError`; HTTP failures go through `_handleError`
likewise. -/
def _queryObservable (opts : ClickHouseClientOptions) (query : String)
    (res : HttpResult) : RunResult :=
  let req := _getRequestOptions opts query false
  match res with
  | .success body =>
      if opts.format = .JSON then
        let d := decodePipeline body
        { requests := [req]
          events := d.1.map Delivery.next ++ (if d.2 then [Delivery.complete] else [])
          logs := [] }
      else
        let h := _handleError (.noResponse unsupportedFormatError)
        { requests := [req], events := [.error h.delivered], logs := h.logs }
  | .failureWithBody chunks =>
      let h := _handleError (.withResponse chunks)
      { requests := [req], events := [.error h.delivered], logs := h.logs }
  | .failureNoBody r =>
      let h := _handleError (.noResponse r)
      { requests := [req], events := [.error h.delivered], logs := h.logs }

/-- The state of a JavaScript `Promise` after the events have played out. -/
inductive PromiseOutcome (ε : Type) (α : Type) where
  | pending
  | rejected (e : ε)
  | resolved (a : α)
deriving Repr

/-- The subscription `_queryPromise` installs: every `next` pushes onto the
accumulator, the first `complete` resolves with the accumulated rows, the
first `error` rejects with the delivered error; with no terminal signal the
promise stays pending. -/
def collectEvents : List Delivery → List Json → PromiseOutcome ErrVal (List Json)
  | [], _ => .pending
  | .next r :: rest, acc => collectEvents rest (acc ++ [r])
  | .complete :: _, acc => .resolved acc
  | .error e :: _, _ => .rejected e

/-- `_queryPromise`: subscribes to `_queryObservable` and collects. -/
def _queryPromise (opts : ClickHouseClientOptions) (query : String)
    (res : HttpResult) : PromiseOutcome ErrVal (List Json) :=
  collectEvents (_queryObservable opts query res).events []

/-- `_validateQuery`: `some message` models the synchronous `throw`. -/
def _validateQuery (query : String) : Option String :=
  if jsTrim query = "" then some "Query is required" else none

/-- `_validateInsert`: table name then record batch are checked; `some
message` models the synchronous `throw`.  (The `Array.isArray` check cannot
fail in the typed embedding.) -/
def _validateInsert (table : String) (data : List Json) : Option String :=
  if jsTrim table = "" then some "Table name is required"
  else if data.length = 0 then some "Data is empty"
  else none

/-- The outcome of calling a public method: a synchronous throw before
anything else happens, or the returned value. -/
inductive CallOutcome (α : Type) where
  | thrown (message : String)
  | value (a : α)

/-- The requests a call caused to be issued (none when it threw
synchronously). -/
def issuedRequests : CallOutcome RunResult → List RequestDescriptor
  | .thrown _ => []
  | .value r => r.requests

/-- The subscriber events of a call (none when it threw synchronously). -/
def eventsOf : CallOutcome RunResult → List Delivery
  | .thrown _ => []
  | .value r => r.events

/-- Public `query`: validates, then returns the observable. -/
def query (opts : ClickHouseClientOptions) (q : String) (res : HttpResult) :
    CallOutcome RunResult :=
  match _validateQuery q with
  | some m => .thrown m
  | none => .value (_queryObservable opts q res)

/-- Public `queryPromise`: validates, then returns the collecting promise. -/
def queryPromise (opts : ClickHouseClientOptions) (q : String) (res : HttpResult) :
    CallOutcome (PromiseOutcome ErrVal (List Json)) :=
  match _validateQuery q with
  | some m => .thrown m
  | none => .value (_queryPromise opts q res)

/-- The statement and body `insert` builds: `INSERT INTO <table>`, extended
by the `switch` on the configured format — only the JSON case appends
` FORMAT JSONEachRow` and serialises the records newline-joined; any other
format leaves the statement bare and the body `undefined`. -/
def insertStatementAndBody (opts : ClickHouseClientOptions) (table : String)
    (data : List Json) : String × Option String :=
  match opts.format with
  | .JSON =>
      ("INSERT INTO " ++ table ++ " FORMAT JSONEachRow",
        some (String.intercalate "\n" (data.map Json.stringify)))
  | _ => ("INSERT INTO " ++ table, none)

/-- The request `insert` issues: `_getRequestOptions` on the raw path
(`withoutFormat = true`), `Object.assign`-extended with the serialised
body. -/
def _insertRequest (opts : ClickHouseClientOptions) (table : String)
    (data : List Json) : RequestDescriptor :=
  let sb := insertStatementAndBody opts table data
  { _getRequestOptions opts sb.1 true with
      responseType := "stream", method := "POST", body := sb.2 }

/-- The run of the observable `insert` returns: on success the response data
events are ignored and `end` completes the subscriber; failures go through
`_handleError`. -/
def _insertRun (opts : ClickHouseClientOptions) (table : String)
    (data : List Json) (res : HttpResult) : RunResult :=
  let req := _insertRequest opts table data
  match res with
  | .success _ => { requests := [req], events := [.complete], logs := [] }
  | .failureWithBody chunks =>
      let h := _handleError (.withResponse chunks)
      { requests := [req], events := [.error h.delivered], logs := h.logs }
  | .failureNoBody r =>
      let h := _handleError (.noResponse r)
      { requests := [req], events := [.error h.delivered], logs := h.logs }

/-- Public `insert`: validates, then returns the observable run. -/
def insert (opts : ClickHouseClientOptions) (table : String) (data : List Json)
    (res : HttpResult) : CallOutcome RunResult :=
  match _validateInsert table data with
  | some m => .thrown m
  | none => .value (_insertRun opts table data res)

/-- The outcome of the `/ping` GET as the transport hands it back: a
response with a body, or a transport failure. -/
inductive PingOutcome where
  | response (body : String)
  | failure (reason : RawError)

/-- `ping`: resolves `true` exactly on the literal body `Ok.\n` (the
truthiness guard on `response.data` sends an empty body to the `false`
branch as well); a caught transport failure rejects with the raw reason. -/
def ping (timeout : Nat) (res : PingOutcome) : PromiseOutcome RawError Bool :=
  match res with
  | .response body =>
      if body ≠ "" then
        if body = "Ok.\n" then .resolved true else .resolved false
      else .resolved false
  | .failure r => .rejected r

/-- A named-parameter value: a string or a number. -/
inductive ParamValue where
  | str (s : String)
  | num (n : Int)
deriving Repr, DecidableEq

/-- Modelled from the spec: the text a parameter value contributes to its
query-string entry — "parameter values are not SQL-escaped by this layer",
so strings pass through verbatim. -/
def paramValueText : ParamValue → String
  | .str s => s
  | .num n => toString n

/-- Modelled from the spec: "Each named parameter becomes a
distinctly-prefixed query-string entry (`param_<name>=<value>`)". -/
def buildParamEntries (ps : List (String × ParamValue)) : List (String × String) :=
  ps.map (fun p => ("param_" ++ p.1, paramValueText p.2))

/-- Modelled from the spec: the released client's parameterized-query request
builder.  The public `query(sql, params)` surface is documented in the README
and exercised by the repository's e2e test, but the `ClickHouseClient.ts`
under `src/` takes no params argument; per the contract, the builder extends
the base request's query string with one `param_<name>` entry per supplied
parameter. -/
def _getRequestOptionsWithParams (opts : ClickHouseClientOptions) (q : String)
    (ps : List (String × ParamValue)) : RequestDescriptor :=
  let base := _getRequestOptions opts q false
  { base with params := base.params ++ buildParamEntries ps }

/-- Count of terminal signals in an event trace. -/
def terminalCount (evs : List Delivery) : Nat :=
  (evs.filter Delivery.isTerminal).length

/-- Whether the decode raised a mid-stream failure on this outcome: a
malformed body, or a picked `data` value that is not an array. -/
def decodeFailed : HttpResult → Bool
  | .success b => !(decodePipeline b).2
  | _ => false

section Lemmas

/-- Collecting a run of `next` events pushes the rows onto the accumulator. -/
theorem collectEvents_nexts (rows : List Json) (rest : List Delivery)
    (acc : List Json) :
    collectEvents (rows.map Delivery.next ++ rest) acc
      = collectEvents rest (acc ++ rows) := by
  induction rows generalizing acc with
  | nil => simp
  | cons r rs ih =>
      simp only [List.map_cons, List.cons_append, collectEvents, List.append_eq]
      rw [ih]
      simp

/-- Terminal count distributes over concatenation. -/
theorem terminalCount_append (l₁ l₂ : List Delivery) :
    terminalCount (l₁ ++ l₂) = terminalCount l₁ + terminalCount l₂ := by
  simp [terminalCount, List.filter_append]

/-- `next` events alone have no terminal signal. -/
theorem terminalCount_map_next (rows : List Json) :
    terminalCount (rows.map Delivery.next) = 0 := by
  simp [terminalCount, List.filter_map, Function.comp, Delivery.isTerminal]

/-- `next` events contribute nothing to the terminal count. -/
theorem terminalCount_nexts (rows : List Json) (l : List Delivery) :
    terminalCount (rows.map Delivery.next ++ l) = terminalCount l := by
  simp [terminalCount_append, terminalCount_map_next]

end Lemmas

/-- C1: for a query whose HTTP response succeeds and whose body is a JSON
object with exactly one top-level field `data` holding an array, the push
stream emits each element of that array via `next`, in array order, and then
completes; the remaining top-level fields contribute no emissions. -/
theorem c1_query_emits_data_rows_then_completes
    (opts : ClickHouseClientOptions) (q : String)
    (fields : List (String × Json)) (rows : List Json)
    (hfmt : opts.format = .JSON)
    (hdata : pickData (.obj fields) = [.arr rows]) :
    (_queryObservable opts q (.success (.parsed (.obj fields)))).events
      = rows.map Delivery.next ++ [Delivery.complete] := by
  simp [_queryObservable, hfmt, decodePipeline, hdata, streamArrayRows]

/-- Witness for C1: the spec's end-to-end scenario 3, where the server body
is `\x7b"data":[\x7b"num":1\x7d,\x7b"num":2\x7d],"rows":2\x7d`. -/
theorem c1_witness :
    (_queryObservable {} "SELECT 1"
        (.success (.parsed (.obj
          [("data", .arr [.obj [("num", .num 1)], .obj [("num", .num 2)]]),
           ("rows", .num 2)])))).events
      = [Json.obj [("num", .num 1)], Json.obj [("num", .num 2)]].map Delivery.next
          ++ [Delivery.complete] :=
  c1_query_emits_data_rows_then_completes {} "SELECT 1" _ _ rfl (by
    simp [pickData])

/-- C2: `_queryPromise` is implemented by subscribing to `_queryObservable`
(no second decode path); when the push stream completes it resolves to
exactly the rows delivered by `next`, in order, and when the push stream
errors it rejects with exactly that error. -/
theorem c2_queryPromise_refines_query
    (opts : ClickHouseClientOptions) (q : String) (res : HttpResult) :
    _queryPromise opts q res = collectEvents (_queryObservable opts q res).events []
    ∧ (∀ rows : List Json,
        (_queryObservable opts q res).events
            = rows.map Delivery.next ++ [Delivery.complete] →
        _queryPromise opts q res = .resolved rows)
    ∧ (∀ (e : ErrVal) (pre : List Json),
        (_queryObservable opts q res).events
            = pre.map Delivery.next ++ [Delivery.error e] →
        _queryPromise opts q res = .rejected e) := by
  refine ⟨rfl, ?_, ?_⟩
  · intro rows h
    simp [_queryPromise, h, collectEvents_nexts, collectEvents]
  · intro e pre h
    simp [_queryPromise, h, collectEvents_nexts, collectEvents]

/-- Witness for C2: a two-row success resolves to those rows; a transport
failure rejects with the delivered raw error. -/
theorem c2_witness :
    _queryPromise {} "SELECT 1"
        (.success (.parsed (.obj [("data", .arr [.num 1, .num 2])])))
      = .resolved [.num 1, .num 2]
    ∧ _queryPromise {} "SELECT 1" (.failureNoBody (.transport 5))
      = .rejected (.raw (.transport 5)) :=
  ⟨(c2_queryPromise_refines_query {} "SELECT 1" _).2.1 [.num 1, .num 2] (by
      simp [_queryObservable, decodePipeline, pickData, streamArrayRows]),
   (c2_queryPromise_refines_query {} "SELECT 1" _).2.2 (.raw (.transport 5)) [] (by
      simp [_queryObservable, _handleError])⟩

/-- C3 (amended): whenever the decode pipeline does not fail mid-stream —
the response decodes cleanly, or the HTTP request itself fails, or the
configured format is unsupported — exactly one terminal signal is delivered,
as the final event after the `next` events; but a mid-stream decode failure
(malformed bytes, a non-array `data` value, premature close) delivers no
terminal signal at all, because no `error` listener is installed on the
decode pipeline: the rows decoded before the failure are emitted and the
stream then neither completes nor errors. -/
theorem c3_amended_one_terminal_unless_decode_failure
    (opts : ClickHouseClientOptions) (q : String) (res : HttpResult) :
    (opts.format = .JSON → decodeFailed res = true →
        terminalCount (_queryObservable opts q res).events = 0)
    ∧ (opts.format = .JSON → decodeFailed res = false →
        ∃ (pre : List Json) (e : Delivery),
          (_queryObservable opts q res).events = pre.map Delivery.next ++ [e]
          ∧ e.isTerminal = true
          ∧ terminalCount (_queryObservable opts q res).events = 1)
    ∧ (opts.format ≠ .JSON →
        ∃ e, (_queryObservable opts q res).events = [Delivery.error e]
          ∧ terminalCount (_queryObservable opts q res).events = 1) := by
  refine ⟨?_, ?_, ?_⟩
  · intro hfmt hfail
    cases res with
    | success b =>
        simp only [decodeFailed, Bool.not_eq_true'] at hfail
        simp [_queryObservable, hfmt, hfail, terminalCount_map_next]
    | failureWithBody chunks => simp [decodeFailed] at hfail
    | failureNoBody r => simp [decodeFailed] at hfail
  · intro hfmt hok
    cases res with
    | success b =>
        have h2 : (decodePipeline b).2 = true := by
          simpa [decodeFailed] using hok
        refine ⟨(decodePipeline b).1, Delivery.complete, ?_, rfl, ?_⟩
        · simp [_queryObservable, hfmt, h2]
        · simp [_queryObservable, hfmt, h2, terminalCount_nexts]
          rfl
    | failureWithBody chunks =>
        refine ⟨[], .error (.msg (jsTrim (String.join chunks))), ?_, rfl, ?_⟩
        · simp [_queryObservable, _handleError]
        · simp [_queryObservable, _handleError]
          rfl
    | failureNoBody r =>
        refine ⟨[], .error (.raw r), ?_, rfl, ?_⟩
        · simp [_queryObservable, _handleError]
        · simp [_queryObservable, _handleError]
          rfl
  · intro hfmt
    cases res with
    | success b =>
        refine ⟨.raw unsupportedFormatError, ?_, ?_⟩
        · simp [_queryObservable, hfmt, _handleError]
        · simp [_queryObservable, hfmt, _handleError]
          rfl
    | failureWithBody chunks =>
        refine ⟨.msg (jsTrim (String.join chunks)), ?_, ?_⟩
        · simp [_queryObservable, _handleError]
        · simp [_queryObservable, _handleError]
          rfl
    | failureNoBody r =>
        refine ⟨.raw r, ?_, ?_⟩
        · simp [_queryObservable, _handleError]
        · simp [_queryObservable, _handleError]
          rfl

/-- Counterexample for C3 as stated: on a response whose body fails to parse,
the query delivers no event at all — zero terminal signals, not the claimed
exactly-one, and the decode failure does not surface as an error on the
delivery channel. -/
theorem c3_counterexample :
    (_queryObservable {} "SELECT 1" (.success .malformed)).events = []
    ∧ terminalCount (_queryObservable {} "SELECT 1" (.success .malformed)).events = 0 :=
  ⟨rfl, rfl⟩

/-- Witness for C3 (amended): a clean one-row response has exactly one
terminal signal, placed last. -/
theorem c3_witness :
    ∃ (pre : List Json) (e : Delivery),
      (_queryObservable {} "SELECT 1"
          (.success (.parsed (.obj [("data", .arr [.num 1])])))).events
        = pre.map Delivery.next ++ [e]
      ∧ e.isTerminal = true
      ∧ terminalCount (_queryObservable {} "SELECT 1"
          (.success (.parsed (.obj [("data", .arr [.num 1])])))).events = 1 :=
  (c3_amended_one_terminal_unless_decode_failure {} "SELECT 1" _).2.1 rfl (by
    simp [decodeFailed, decodePipeline, pickData, streamArrayRows])

/-- C4: `ping` resolves `true` exactly on the literal body `Ok.\n`; any other
successful body (partial match, different case, empty) resolves `false`; it
rejects exactly on a transport-level failure, carrying the underlying
failure value. -/
theorem c4_ping_exact_literal (t : Nat) :
    (∀ body : String,
        ping t (.response body) = .resolved (decide (body = "Ok.\n")))
    ∧ (∀ r : RawError, ping t (.failure r) = .rejected r)
    ∧ (∀ (o : PingOutcome) (e : RawError), ping t o = .rejected e → o = .failure e) := by
  refine ⟨?_, fun r => rfl, ?_⟩
  · intro body
    by_cases h2 : body = "Ok.\n"
    · subst h2
      simp [ping]
    · by_cases h0 : body = ""
      · subst h0
        simp [ping]
      · simp [ping, h0, h2]
  · intro o e h
    cases o with
    | response body =>
        exfalso
        simp only [ping] at h
        split at h
        · split at h <;> simp_all
        · simp_all
    | failure r =>
        simp only [ping, PromiseOutcome.rejected.injEq] at h
        rw [h]

/-- Witness for C4: the exact literal, a partial match, the empty body, and a
transport failure. -/
theorem c4_witness :
    ping 3000 (.response "Ok.\n") = .resolved true
    ∧ ping 3000 (.response "Ok.") = .resolved false
    ∧ ping 3000 (.response "") = .resolved false
    ∧ ping 3000 (.failure (.transport 7)) = .rejected (.transport 7) :=
  ⟨by simpa using (c4_ping_exact_literal 3000).1 "Ok.\n",
   by simpa using (c4_ping_exact_literal 3000).1 "Ok.",
   by simpa using (c4_ping_exact_literal 3000).1 "",
   (c4_ping_exact_literal 3000).2.1 (.transport 7)⟩

/-- C5: `query` with empty-or-whitespace SQL, and `insert` with an
empty-or-whitespace table name or an empty record batch, throw synchronously
(`Query is required` / `Table name is required` / `Data is empty`) before any
request is issued; valid arguments pass validation and reach the network
path. -/
theorem c5_invalid_arguments_fail_fast
    (opts : ClickHouseClientOptions) (q table : String) (records : List Json)
    (res res2 : HttpResult) :
    (jsTrim q = "" →
        query opts q res = .thrown "Query is required"
        ∧ issuedRequests (query opts q res) = [])
    ∧ (jsTrim table = "" →
        insert opts table records res2 = .thrown "Table name is required"
        ∧ issuedRequests (insert opts table records res2) = [])
    ∧ (jsTrim table ≠ "" → records = [] →
        insert opts table records res2 = .thrown "Data is empty"
        ∧ issuedRequests (insert opts table records res2) = [])
    ∧ (jsTrim q ≠ "" → query opts q res = .value (_queryObservable opts q res))
    ∧ (jsTrim table ≠ "" → records ≠ [] →
        insert opts table records res2 = .value (_insertRun opts table records res2)) := by
  refine ⟨?_, ?_, ?_, ?_, ?_⟩
  · intro h
    simp [query, _validateQuery, h, issuedRequests]
  · intro h
    simp [insert, _validateInsert, h, issuedRequests]
  · intro ht hr
    subst hr
    simp [insert, _validateInsert, ht, issuedRequests]
  · intro h
    simp [query, _validateQuery, h]
  · intro ht hr
    simp [insert, _validateInsert, ht, List.length_eq_zero, hr]

/-- Witness for C5: `query("   ")`, `insert("", …)`, `insert("visits", [])`
throw with no request issued; valid calls pass validation. -/
theorem c5_witness :
    (query {} "   " (.success .malformed) = .thrown "Query is required"
      ∧ issuedRequests (query {} "   " (.success .malformed)) = [])
    ∧ (insert {} " " [.null] (.success .malformed) = .thrown "Table name is required"
      ∧ issuedRequests (insert {} " " [.null] (.success .malformed)) = [])
    ∧ (insert {} "visits" [] (.success .malformed) = .thrown "Data is empty"
      ∧ issuedRequests (insert {} "visits" [] (.success .malformed)) = [])
    ∧ query {} "SELECT 1" (.success .malformed)
        = .value (_queryObservable {} "SELECT 1" (.success .malformed))
    ∧ insert {} "visits" [.null] (.success .malformed)
        = .value (_insertRun {} "visits" [.null] (.success .malformed)) :=
  ⟨(c5_invalid_arguments_fail_fast {} "   " "t" []
      (.success .malformed) (.success .malformed)).1 (by decide),
   (c5_invalid_arguments_fail_fast {} "q" " " [.null]
      (.success .malformed) (.success .malformed)).2.1 (by decide),
   (c5_invalid_arguments_fail_fast {} "q" "visits" []
      (.success .malformed) (.success .malformed)).2.2.1 (by decide) rfl,
   (c5_invalid_arguments_fail_fast {} "SELECT 1" "t" []
      (.success .malformed) (.success .malformed)).2.2.2.1 (by decide),
   (c5_invalid_arguments_fail_fast {} "q" "visits" [.null]
      (.success .malformed) (.success .malformed)).2.2.2.2 (by decide) (by simp)⟩

/-- Counterexample for C6 as stated: with a non-JSON configured format, the
query call does not fail synchronously before the network call — it returns
the observable, the HTTP request is issued, and only then is the unsupported
format error delivered asynchronously on the error channel. -/
theorem c6_counterexample :
    issuedRequests (query { format := .TabSeparated } "SELECT 1"
        (.success (.parsed .null)))
      = [_getRequestOptions { format := .TabSeparated } "SELECT 1" false]
    ∧ eventsOf (query { format := .TabSeparated } "SELECT 1"
        (.success (.parsed .null)))
      = [.error (.raw unsupportedFormatError)] :=
  ⟨rfl, rfl⟩

/-- C6 (amended): with a non-JSON configured format and non-blank SQL, the
query issues its HTTP request and, once the response arrives, the thrown
`Unsupported data format` error is caught and delivered asynchronously on
the error channel as a raw error, logged once — not synchronously before the
network call. -/
theorem c6_amended_unsupported_format_async
    (opts : ClickHouseClientOptions) (q : String) (b : BodyOutcome)
    (hfmt : opts.format ≠ .JSON) (hq : jsTrim q ≠ "") :
    query opts q (.success b)
      = .value { requests := [_getRequestOptions opts q false]
                 events := [.error (.raw unsupportedFormatError)]
                 logs := [.raw unsupportedFormatError] } := by
  simp [query, _validateQuery, hq, _queryObservable, hfmt, _handleError]

/-- Witness for C6 (amended): a TabSeparated-configured client with a valid
query. -/
theorem c6_witness :
    query { format := .TabSeparated } "SELECT 1" (.success .malformed)
      = .value { requests := [_getRequestOptions { format := .TabSeparated } "SELECT 1" false]
                 events := [.error (.raw unsupportedFormatError)]
                 logs := [.raw unsupportedFormatError] } :=
  c6_amended_unsupported_format_async { format := .TabSeparated } "SELECT 1"
    .malformed (by decide) (by decide)

/-- C7: with a response body, `_handleError` drains all chunks, concatenates
them as text, trims, logs the trimmed text exactly once and delivers it as
the error value; with no response body, the raw failure is logged exactly
once and delivered as-is; in both cases the logged value is exactly the
delivered one, and the query error channel receives it. -/
theorem c7_error_extraction_drains_logs_delivers :
    (∀ chunks : List String,
        _handleError (.withResponse chunks)
          = { logs := [.msg (jsTrim (String.join chunks))]
              delivered := .msg (jsTrim (String.join chunks)) })
    ∧ (∀ r : RawError,
        _handleError (.noResponse r) = { logs := [.raw r], delivered := .raw r })
    ∧ (∀ c : CaughtReason, (_handleError c).logs = [(_handleError c).delivered])
    ∧ (∀ (opts : ClickHouseClientOptions) (q2 : String) (chunks : List String),
        (_queryObservable opts q2 (.failureWithBody chunks)).events
            = [.error (.msg (jsTrim (String.join chunks)))]
        ∧ (_queryObservable opts q2 (.failureWithBody chunks)).logs
            = [.msg (jsTrim (String.join chunks))])
    ∧ (∀ (opts : ClickHouseClientOptions) (q2 : String) (r : RawError),
        (_queryObservable opts q2 (.failureNoBody r)).events = [.error (.raw r)]
        ∧ (_queryObservable opts q2 (.failureNoBody r)).logs = [.raw r]) := by
  refine ⟨fun chunks => rfl, fun r => rfl, ?_, fun opts q2 chunks => ⟨rfl, rfl⟩,
    fun opts q2 r => ⟨rfl, rfl⟩⟩
  intro c
  cases c <;> rfl

/-- C8: on the formatted path the request's `query` entry is the caller's SQL
with trailing whitespace removed followed by ` FORMAT <configured format>`;
the insert pipeline (raw path) builds exactly
`INSERT INTO <table> FORMAT JSONEachRow` with a body equal to the records
serialised by `JSON.stringify`, one per record, newline-joined, in order. -/
theorem c8_formatted_sql_and_insert_wire
    (opts : ClickHouseClientOptions) (q table : String) (records : List Json) :
    (_getRequestOptions opts q false).params.head?
        = some ("query", jsTrimEnd q ++ " FORMAT " ++ opts.format.name)
    ∧ (opts.format = .JSON →
        (_insertRequest opts table records).params.head?
            = some ("query", "INSERT INTO " ++ table ++ " FORMAT JSONEachRow")
        ∧ (_insertRequest opts table records).body
            = some (String.intercalate "\n" (records.map Json.stringify))) := by
  constructor
  · simp [_getRequestOptions]
  · intro hfmt
    constructor
    · simp [_insertRequest, insertStatementAndBody, hfmt, _getRequestOptions]
    · simp [_insertRequest, insertStatementAndBody, hfmt]

/-- Witness for C8: a default (JSON) client, a SQL text with trailing blanks,
and a two-record batch. -/
theorem c8_witness :
    (({} : ClickHouseClientOptions).format = ClickHouseDataFormat.JSON)
    ∧ ((_getRequestOptions {} "SELECT 1  " false).params.head?
        = some ("query", jsTrimEnd "SELECT 1  " ++ " FORMAT "
            ++ ({} : ClickHouseClientOptions).format.name)
      ∧ (_insertRequest {} "visits" [.obj [("a", .num 1)], .obj [("a", .num 2)]]).params.head?
          = some ("query", "INSERT INTO " ++ "visits" ++ " FORMAT JSONEachRow")
      ∧ (_insertRequest {} "visits" [.obj [("a", .num 1)], .obj [("a", .num 2)]]).body
          = some (String.intercalate "\n"
              ([Json.obj [("a", .num 1)], Json.obj [("a", .num 2)]].map Json.stringify))) :=
  ⟨rfl,
   (c8_formatted_sql_and_insert_wire {} "SELECT 1  " "visits"
      [.obj [("a", .num 1)], .obj [("a", .num 2)]]).1,
   (c8_formatted_sql_and_insert_wire {} "SELECT 1  " "visits"
      [.obj [("a", .num 1)], .obj [("a", .num 2)]]).2 rfl⟩

/-- C9: each supplied named parameter becomes the query-string entry
`param_<name>=<value>`; the built request carries the base entries plus one
such entry per supplied parameter and no others, in order; string parameter
values are passed through verbatim with no SQL-escaping. -/
theorem c9_param_entries_one_per_parameter
    (opts : ClickHouseClientOptions) (q : String)
    (ps : List (String × ParamValue)) :
    (_getRequestOptionsWithParams opts q ps).params
        = (_getRequestOptions opts q false).params ++ buildParamEntries ps
    ∧ (buildParamEntries ps).length = ps.length
    ∧ (∀ (n : String) (v : ParamValue), (n, v) ∈ ps →
        ("param_" ++ n, paramValueText v) ∈ (_getRequestOptionsWithParams opts q ps).params)
    ∧ (∀ entry, entry ∈ buildParamEntries ps →
        ∃ p, p ∈ ps ∧ entry = ("param_" ++ p.1, paramValueText p.2))
    ∧ (∀ s : String, paramValueText (.str s) = s) := by
  refine ⟨rfl, by simp [buildParamEntries], ?_, ?_, fun s => rfl⟩
  · intro n v h
    refine List.mem_append_right _ ?_
    exact List.mem_map.mpr ⟨(n, v), h, rfl⟩
  · intro entry h
    rcases List.mem_map.mp h with ⟨p, hp, he⟩
    exact ⟨p, hp, he.symm⟩

/-- Witness for C9: one string and one numeric parameter. -/
theorem c9_witness :
    (_getRequestOptionsWithParams {} "SELECT \x7blimit:UInt8\x7d" [("limit", .num 7), ("os", .str "OSX")]).params
        = (_getRequestOptions {} "SELECT \x7blimit:UInt8\x7d" false).params
            ++ buildParamEntries [("limit", .num 7), ("os", .str "OSX")]
    ∧ ("param_" ++ "limit", paramValueText (.num 7))
        ∈ (_getRequestOptionsWithParams {} "SELECT \x7blimit:UInt8\x7d"
            [("limit", .num 7), ("os", .str "OSX")]).params
    ∧ ("param_" ++ "os", paramValueText (.str "OSX"))
        ∈ (_getRequestOptionsWithParams {} "SELECT \x7blimit:UInt8\x7d"
            [("limit", .num 7), ("os", .str "OSX")]).params :=
  ⟨(c9_param_entries_one_per_parameter {} "SELECT \x7blimit:UInt8\x7d"
      [("limit", .num 7), ("os", .str "OSX")]).1,
   (c9_param_entries_one_per_parameter {} "SELECT \x7blimit:UInt8\x7d"
      [("limit", .num 7), ("os", .str "OSX")]).2.2.1 "limit" (.num 7) (by simp),
   (c9_param_entries_one_per_parameter {} "SELECT \x7blimit:UInt8\x7d"
      [("limit", .num 7), ("os", .str "OSX")]).2.2.1 "os" (.str "OSX") (by simp)⟩

/-- C10: an insert under a non-JSON configured format does not fail with
UnsupportedFormat — it issues the write request with statement exactly
`INSERT INTO <table>` (no row-format directive) and an undefined body. -/
theorem c10_insert_non_json_bare_statement
    (opts : ClickHouseClientOptions) (table : String) (records : List Json)
    (res : HttpResult)
    (hfmt : opts.format ≠ .JSON) (ht : jsTrim table ≠ "") (hr : records ≠ []) :
    insert opts table records res = .value (_insertRun opts table records res)
    ∧ (_insertRun opts table records res).requests = [_insertRequest opts table records]
    ∧ (_insertRequest opts table records).params.head?
        = some ("query", "INSERT INTO " ++ table)
    ∧ (_insertRequest opts table records).body = none := by
  have hsb : insertStatementAndBody opts table records
      = ("INSERT INTO " ++ table, none) := by
    cases hfmt2 : opts.format with
    | JSON => exact absurd hfmt2 hfmt
    | TabSeparated => simp [insertStatementAndBody, hfmt2]
  refine ⟨?_, ?_, ?_, ?_⟩
  · simp [insert, _validateInsert, ht, List.length_eq_zero, hr]
  · cases res <;> rfl
  · simp [_insertRequest, hsb, _getRequestOptions]
  · simp [_insertRequest, hsb]

/-- Witness for C10: a TabSeparated-configured client inserting one record. -/
theorem c10_witness :
    (({ format := .TabSeparated } : ClickHouseClientOptions).format ≠ ClickHouseDataFormat.JSON)
    ∧ jsTrim "visits" ≠ ""
    ∧ ([Json.obj [("a", .num 1)]] ≠ ([] : List Json))
    ∧ (insert { format := .TabSeparated } "visits" [.obj [("a", .num 1)]]
          (.success (.parsed .null))
        = .value (_insertRun { format := .TabSeparated } "visits"
            [.obj [("a", .num 1)]] (.success (.parsed .null)))
      ∧ (_insertRun { format := .TabSeparated } "visits" [.obj [("a", .num 1)]]
            (.success (.parsed .null))).requests
          = [_insertRequest { format := .TabSeparated } "visits" [.obj [("a", .num 1)]]]
      ∧ (_insertRequest { format := .TabSeparated } "visits"
            [.obj [("a", .num 1)]]).params.head?
          = some ("query", "INSERT INTO " ++ "visits")
      ∧ (_insertRequest { format := .TabSeparated } "visits"
            [.obj [("a", .num 1)]]).body = none) :=
  ⟨by decide, by decide, by simp,
   c10_insert_non_json_bare_statement { format := .TabSeparated } "visits"
     [.obj [("a", .num 1)]] (.success (.parsed .null)) (by decide) (by decide) (by simp)⟩

end ClickHouseClient

end ClickHouse
